import Mathlib

/-!
Verification of the Lightning local-government triage app.

The TypeScript source is shallowly embedded: loosely-typed Firestore record
values become the inductive `JsValue`, JavaScript numbers become `JsNum`
(a rational plus the NaN / infinity sentinels), and each service call is
abstracted as an explicit parameter describing the collaborator's response,
so every source function becomes a pure, executable Lean definition.
-/

namespace Lightning

/-- JavaScript number: a finite value (modelled exactly as a fraction
`num / den` with `den > 0`, kept un-normalized as the float parser produces
it — this app only constructs and renders numbers, never computes with
them), the two infinities, or NaN. -/
inductive JsNum where
  | finite (num : ℤ) (den : ℕ)
  | posInf
  | negInf
  | nan
deriving DecidableEq, Repr

/-- The JavaScript number zero. -/
def JsNum.zero : JsNum := .finite 0 1

/-- A loosely-typed JavaScript value as stored in a Firestore document field.
`tsObj displayString` models a Firestore `Timestamp` object (the only field
values with a `toDate` method); `displayString` is the string that
`toDate().toLocaleString()` renders for it, carried on the value so that the
rendering is a function of the value. `undefined` stands for an absent field. -/
inductive JsValue where
  | undefined
  | null
  | bool (b : Bool)
  | num (n : JsNum)
  | str (s : String)
  | tsObj (displayString : String)
deriving DecidableEq, Repr

/-- JavaScript truthiness: `undefined`, `null`, `false`, `0`, `NaN` and the
empty string are falsy; every other value (including objects) is truthy. -/
def JsValue.truthy : JsValue → Bool
  | .undefined => false
  | .null => false
  | .bool b => b
  | .num (.finite n _) => n ≠ 0
  | .num .nan => false
  | .num _ => true
  | .str s => s ≠ ""
  | .tsObj _ => true

/-- Decimal rendering of a non-negative rational's fractional part by long
division, used by `jsNumToString`; `fuel` bounds the number of digits. -/
def fracDigits (fuel : Nat) (num den : Nat) : String :=
  match fuel with
  | 0 => ""
  | fuel + 1 =>
    if num = 0 then ""
    else
      let num10 := num * 10
      (Nat.repr (num10 / den)) ++ fracDigits fuel (num10 % den) den

/-- JavaScript `String(n)` for a number, on the domain this app exercises:
integers render as decimal integers, NaN and the infinities by their
literals, and finite non-integers by their (terminating) decimal expansion
up to 40 digits. -/
def jsNumToString : JsNum → String
  | .nan => "NaN"
  | .posInf => "Infinity"
  | .negInf => "-Infinity"
  | .finite n d =>
    let sign := if n < 0 then "-" else ""
    let a := n.natAbs
    let ip := a / d
    let fr := a % d
    if fr = 0 then sign ++ Nat.repr ip
    else sign ++ Nat.repr ip ++ "." ++ fracDigits 40 fr d

/-- JavaScript `String(v)` coercion, on the value shapes this app stores.
(A Firestore Timestamp is only ever stringified after `toDate()`; we render
its display string.) -/
def jsToString : JsValue → String
  | .undefined => "undefined"
  | .null => "null"
  | .bool b => if b then "true" else "false"
  | .num n => jsNumToString n
  | .str s => s
  | .tsObj d => d

/-- A raw Firestore document's data: field name/value pairs in the
object's key order (`Object.keys` order). -/
def RawRecord := List (String × JsValue)

/-- `data.f` field access: the first binding of the name, else `undefined`. -/
def getField (data : RawRecord) (name : String) : JsValue :=
  match data.find? (fun kv => kv.1 = name) with
  | some kv => kv.2
  | none => .undefined

/-- JavaScript `s.startsWith(pre)`. -/
def jsStartsWith (s pre : String) : Bool :=
  pre.data.isPrefixOf s.data

/-- JavaScript whitespace characters accepted by `parseFloat`'s leading
skip (space, tab, newline, carriage return, form feed, vertical tab). -/
def isJsWhitespace (c : Char) : Bool :=
  c = ' ' || c = '\t' || c = '\n' || c = '\r' || c = '\x0c' || c = '\x0b'

/-- Take the longest leading run of decimal digits. -/
def takeDigits : List Char → (List Char × List Char)
  | [] => ([], [])
  | c :: cs =>
    if c.isDigit then
      let (ds, rest) := takeDigits cs
      (c :: ds, rest)
    else ([], c :: cs)

/-- Numeric value of a digit list read as a decimal natural. -/
def digitsToNat (ds : List Char) : Nat :=
  ds.foldl (fun acc c => acc * 10 + (c.toNat - '0'.toNat)) 0

/-- Scale an exact fraction by an integer power of ten (applied to the
numerator when the exponent is non-negative, to the denominator
otherwise). -/
def mulPow10 (num : ℤ) (den : ℕ) (e : ℤ) : JsNum :=
  if 0 ≤ e then .finite (num * (10 : ℤ) ^ e.toNat) den
  else .finite num (den * 10 ^ (-e).toNat)

/-- The optional exponent suffix of a JavaScript float literal: `e`/`E`, an
optional sign, then digits. If the digits are missing the suffix is not
consumed (as in `parseFloat("3e")`, which yields 3). Returns the exponent,
defaulting to 0. -/
def parseExponent (cs : List Char) : ℤ :=
  match cs with
  | c :: rest =>
    if c = 'e' || c = 'E' then
      match rest with
      | '+' :: ds => (if (takeDigits ds).1 = [] then 0 else (digitsToNat (takeDigits ds).1 : ℤ))
      | '-' :: ds => (if (takeDigits ds).1 = [] then 0 else -(digitsToNat (takeDigits ds).1 : ℤ))
      | ds => (if (takeDigits ds).1 = [] then 0 else (digitsToNat (takeDigits ds).1 : ℤ))
    else 0
  | [] => 0

/-- The unsigned body of a JavaScript float literal: `Infinity`, or digits
with an optional fraction, or a fraction alone (`.5`). `none` when no valid
prefix exists. -/
def parseUnsignedFloat (cs : List Char) : Option JsNum :=
  if cs.take 8 = "Infinity".data then some .posInf
  else
    let (ip, rest) := takeDigits cs
    match rest with
    | '.' :: rest2 =>
      let (fp, rest3) := takeDigits rest2
      if ip = [] && fp = [] then none
      else
        let scale := 10 ^ fp.length
        let mantissaNum : ℤ := (digitsToNat ip * scale + digitsToNat fp : ℕ)
        some (mulPow10 mantissaNum scale (parseExponent rest3))
    | _ =>
      if ip = [] then none
      else some (mulPow10 (digitsToNat ip : ℕ) 1 (parseExponent rest))

/-- JavaScript `parseFloat` on a string: skip leading whitespace, read an
optional sign and the longest valid float prefix; `NaN` when none exists. -/
def parseFloatStr (s : String) : JsNum :=
  let cs := s.data.dropWhile isJsWhitespace
  match cs with
  | '+' :: rest => (parseUnsignedFloat rest).getD .nan
  | '-' :: rest =>
    match parseUnsignedFloat rest with
    | some .posInf => .negInf
    | some (.finite n d) => .finite (-n) d
    | some other => other
    | none => .nan
  | rest => (parseUnsignedFloat rest).getD .nan

/-- JavaScript `parseFloat(v)` on an arbitrary value: the argument is first
coerced to a string; for every number `n`, `parseFloat(String(n)) = n`, and
every non-string non-number shape this app stores stringifies to text with
no valid float prefix. -/
def parseFloatJs : JsValue → JsNum
  | .num n => n
  | .str s => parseFloatStr s
  | _ => .nan

/-- The canonical `Report` entity, from the `Report` interface of the
repository's types module (src/index.tsx, second concatenated document,
lines 30-39): six required string fields, two numeric coordinates, and an
optional `timestampString?`. Coordinates are JavaScript numbers. -/
structure Report where
  id : String
  address : String
  dateTime : String
  description : String
  imageBase64 : String
  latitude : JsNum
  longitude : JsNum
  timestampString : Option String
deriving DecidableEq, Repr

/-- `raw || default` for the string-typed Report fields: the raw value when
truthy (coerced to a string as its later uses do), else the default. -/
def strFieldOrDefault (v : JsValue) (dflt : String) : String :=
  if v.truthy then jsToString v else dflt

/-- The timestamp cascade of `fetchReports` (src/unnamed/part_002 lines
29-49): a Firestore Timestamp object (a truthy value with a `toDate`
method) renders via `toDate().toLocaleString()`; else a truthy `timestamp`
field is stringified; else a truthy `timestampJanuary` field renders as
`January <value>`; else the first field whose key starts with `timestamp`
is stringified; else the initial `"Unknown Time"` stands. -/
def resolveTimestamp (data : RawRecord) : String :=
  let ts := getField data "timestamp"
  match ts with
  | .tsObj displayString => displayString
  | v =>
    if v.truthy then jsToString v
    else if (getField data "timestampJanuary").truthy then
      "January " ++ jsToString (getField data "timestampJanuary")
    else
      match data.find? (fun kv => jsStartsWith kv.1 "timestamp") with
      | some kv => jsToString kv.2
      | none => "Unknown Time"

/-- The image-placeholder handling of `fetchReports` (lines 52-56):
`data.imageBase64 || ""`, then the literal placeholder `"..."` is replaced
by the empty string. -/
def normalizeImage (v : JsValue) : String :=
  let img := strFieldOrDefault v ""
  if img = "..." then "" else img

/-- The per-document normalization inside `fetchReports`
(src/unnamed/part_002 lines 19-67). `docId` is the store-assigned document
id and `now` is the ISO-8601 rendering of the current instant, the value
`new Date().toISOString()` produces at this run. -/
def normalizeReport (docId : String) (data : RawRecord) (now : String) : Report :=
  let lat := parseFloatJs (getField data "latitude")
  let lng := parseFloatJs (getField data "longitude")
  { id := docId
    address := strFieldOrDefault (getField data "address") "Unknown Location"
    dateTime := strFieldOrDefault (getField data "dateTime") now
    description := strFieldOrDefault (getField data "description") "No description provided"
    imageBase64 := normalizeImage (getField data "imageBase64")
    latitude := if lat = .nan then JsNum.zero else lat
    longitude := if lng = .nan then JsNum.zero else lng
    timestampString := some (resolveTimestamp data) }

/-! ### String searching helpers (models of `String.prototype` methods) -/

/-- Split at the first occurrence of `sep` (non-empty in all uses): returns
the text before and the text after it, or `none` when `sep` does not occur. -/
def breakOnSub (sep : List Char) : List Char → Option (List Char × List Char)
  | [] => none
  | c :: cs =>
    if sep.isPrefixOf (c :: cs) then some ([], (c :: cs).drop sep.length)
    else
      match breakOnSub sep cs with
      | some (pre, post) => some (c :: pre, post)
      | none => none

/-- JavaScript `s.includes(pat)` for a non-empty pattern. -/
def includesSub (s pat : String) : Bool :=
  (breakOnSub pat.data s.data).isSome

/-- JavaScript `s.split(sep)[1]` for a non-empty separator: the chunk
between the first and second occurrences of `sep` (to the end when `sep`
occurs once), or `none` when `sep` does not occur at all. -/
def splitSecondChunk (sep : List Char) (cs : List Char) : Option (List Char) :=
  match breakOnSub sep cs with
  | none => none
  | some (_, post) =>
    match breakOnSub sep post with
    | some (pre2, _) => some pre2
    | none => some post

/-- JavaScript `s.trim()` (on the ASCII whitespace this app encounters). -/
def jsTrim (s : String) : String :=
  ⟨((s.data.dropWhile isJsWhitespace).reverse.dropWhile isJsWhitespace).reverse⟩

/-! ### JSON values and a model of `JSON.parse` -/

/-- A parsed JSON document, the result of a successful `JSON.parse`. -/
inductive Json where
  | null
  | bool (b : Bool)
  | num (n : JsNum)
  | str (s : String)
  | arr (elems : List Json)
  | obj (fields : List (String × Json))

/-- JSON insignificant whitespace. -/
def skipJsonWs (cs : List Char) : List Char :=
  cs.dropWhile (fun c => c = ' ' || c = '\t' || c = '\n' || c = '\r')

/-- Hexadecimal digit value, for `\u` escapes. -/
def hexVal (c : Char) : Option Nat :=
  if '0' ≤ c ∧ c ≤ '9' then some (c.toNat - '0'.toNat)
  else if 'a' ≤ c ∧ c ≤ 'f' then some (c.toNat - 'a'.toNat + 10)
  else if 'A' ≤ c ∧ c ≤ 'F' then some (c.toNat - 'A'.toNat + 10)
  else none

/-- The body of a JSON string after its opening quote: literal characters
and the standard escapes, up to the closing quote. Returns the decoded
characters and the remaining input. -/
def parseJsonStringBody : Nat → List Char → Option (List Char × List Char)
  | 0, _ => none
  | _, [] => none
  | fuel + 1, c :: rest =>
    if c = '"' then some ([], rest)
    else if c = '\\' then
      match rest with
      | [] => none
      | e :: rest2 =>
        let decoded : Option (Char × List Char) :=
          if e = '"' then some ('"', rest2)
          else if e = '\\' then some ('\\', rest2)
          else if e = '/' then some ('/', rest2)
          else if e = 'b' then some ('\x08', rest2)
          else if e = 'f' then some ('\x0c', rest2)
          else if e = 'n' then some ('\n', rest2)
          else if e = 'r' then some ('\r', rest2)
          else if e = 't' then some ('\t', rest2)
          else if e = 'u' then
            match rest2 with
            | h1 :: h2 :: h3 :: h4 :: rest3 =>
              match hexVal h1, hexVal h2, hexVal h3, hexVal h4 with
              | some a, some b, some c', some d =>
                some (Char.ofNat (((a * 16 + b) * 16 + c') * 16 + d), rest3)
              | _, _, _, _ => none
            | _ => none
          else none
        match decoded with
        | some (ch, rest') =>
          match parseJsonStringBody fuel rest' with
          | some (s, r) => some (ch :: s, r)
          | none => none
        | none => none
    else
      match parseJsonStringBody fuel rest with
      | some (s, r) => some (c :: s, r)
      | none => none

/-- The integer digits of a JSON number: `0` alone, or a run led by a
non-zero digit (JSON forbids leading zeros). -/
def parseJsonIntDigits (cs : List Char) : Option (List Char × List Char) :=
  match cs with
  | '0' :: rest => some (['0'], rest)
  | _ =>
    let (ds, rest) := takeDigits cs
    if ds = [] then none else some (ds, rest)

/-- A JSON number token: optional minus, integer part, optional fraction
(at least one digit), optional exponent (at least one digit). -/
def parseJsonNumber (cs : List Char) : Option (JsNum × List Char) :=
  let (neg, cs1) := match cs with
    | '-' :: r => (true, r)
    | _ => (false, cs)
  match parseJsonIntDigits cs1 with
  | none => none
  | some (ip, rest) =>
    let fracPart : Option (List Char × List Char) :=
      match rest with
      | '.' :: r =>
        let (ds, r2) := takeDigits r
        if ds = [] then none else some (ds, r2)
      | _ => some ([], rest)
    match fracPart with
    | none => none
    | some (fp, rest2) =>
      let expPart : Option (ℤ × List Char) :=
        match rest2 with
        | c :: r =>
          if c = 'e' || c = 'E' then
            match r with
            | '+' :: ds =>
              let (es, r2) := takeDigits ds
              if es = [] then none else some ((digitsToNat es : ℤ), r2)
            | '-' :: ds =>
              let (es, r2) := takeDigits ds
              if es = [] then none else some (-(digitsToNat es : ℤ), r2)
            | ds =>
              let (es, r2) := takeDigits ds
              if es = [] then none else some ((digitsToNat es : ℤ), r2)
          else some (0, rest2)
        | [] => some (0, rest2)
      match expPart with
      | none => none
      | some (e, rest3) =>
        let scale := 10 ^ fp.length
        let mantissa : ℤ := (digitsToNat ip * scale + digitsToNat fp : ℕ)
        let signed := if neg then -mantissa else mantissa
        some (mulPow10 signed scale e, rest3)

mutual

/-- One JSON value, leading whitespace allowed: the literals, a string, an
array, an object, or a number. -/
def parseJsonValue : Nat → List Char → Option (Json × List Char)
  | 0, _ => none
  | fuel + 1, cs =>
    let cs0 := skipJsonWs cs
    if cs0.take 4 = "null".data then some (.null, cs0.drop 4)
    else if cs0.take 4 = "true".data then some (.bool true, cs0.drop 4)
    else if cs0.take 5 = "false".data then some (.bool false, cs0.drop 5)
    else
      match cs0 with
      | '"' :: rest =>
        match parseJsonStringBody fuel rest with
        | some (s, r) => some (.str ⟨s⟩, r)
        | none => none
      | '[' :: rest =>
        match skipJsonWs rest with
        | ']' :: rest2 => some (.arr [], rest2)
        | _ =>
          match parseJsonElems fuel rest with
          | some (xs, r) => some (.arr xs, r)
          | none => none
      | '{' :: rest =>
        match skipJsonWs rest with
        | '}' :: rest2 => some (.obj [], rest2)
        | _ =>
          match parseJsonMembers fuel rest with
          | some (kvs, r) => some (.obj kvs, r)
          | none => none
      | _ =>
        match parseJsonNumber cs0 with
        | some (n, r) => some (.num n, r)
        | none => none

/-- The comma-separated elements of a non-empty JSON array, consuming the
closing bracket. -/
def parseJsonElems : Nat → List Char → Option (List Json × List Char)
  | 0, _ => none
  | fuel + 1, cs =>
    match parseJsonValue fuel cs with
    | none => none
    | some (x, rest) =>
      match skipJsonWs rest with
      | ',' :: rest2 =>
        match parseJsonElems fuel rest2 with
        | some (xs, r) => some (x :: xs, r)
        | none => none
      | ']' :: rest2 => some ([x], rest2)
      | _ => none

/-- The comma-separated members of a non-empty JSON object, consuming the
closing brace. -/
def parseJsonMembers : Nat → List Char → Option (List (String × Json) × List Char)
  | 0, _ => none
  | fuel + 1, cs =>
    match skipJsonWs cs with
    | '"' :: rest =>
      match parseJsonStringBody fuel rest with
      | none => none
      | some (key, rest2) =>
        match skipJsonWs rest2 with
        | ':' :: rest3 =>
          match parseJsonValue fuel rest3 with
          | none => none
          | some (v, rest4) =>
            match skipJsonWs rest4 with
            | ',' :: rest5 =>
              match parseJsonMembers fuel rest5 with
              | some (kvs, r) => some ((⟨key⟩, v) :: kvs, r)
              | none => none
            | '}' :: rest5 => some ([(⟨key⟩, v)], rest5)
            | _ => none
        | _ => none
    | _ => none

end

/-- Model of `JSON.parse`: parse one JSON document with nothing but
whitespace around it; `none` models the `SyntaxError` throw. The fuel is
sufficient because every two nested parsing calls consume at least one
input character. -/
def parseJson (s : String) : Option Json :=
  match parseJsonValue (2 * s.length + 2) s.data with
  | some (j, rest) => if skipJsonWs rest = [] then some j else none
  | none => none

/-! ### The fixed analysis output schema and its strict decoder -/

/-- The four severity levels: the `severity` enum of the analysis response
schema (src/unnamed/part_001 line 58), equally the union type of the
`SolutionItem` interface (src/index.tsx, types module, line 50). -/
inductive Severity where
  | critical
  | high
  | medium
  | low
deriving DecidableEq, Repr

/-- One per-report verdict, per the `SolutionItem` interface
(src/index.tsx, types module, lines 48-56) and the `prioritizedReports`
item schema (src/unnamed/part_001 lines 55-66): seven required fields. -/
structure SolutionItem where
  reportId : String
  severity : Severity
  displayTitle : String
  actionPlan : String
  recommendedResource : String
  justification : String
  isRelevant : Bool
deriving DecidableEq, Repr

/-- The analysis result, per the `AnalysisResult` interface
(src/index.tsx, types module, lines 43-46) and the response schema
(src/unnamed/part_001 lines 45-70): a narrative plus the verdict array,
both required. -/
structure AnalysisResult where
  strategicOverview : String
  prioritizedReports : List SolutionItem
deriving DecidableEq, Repr

/-- Field lookup in a JSON object (first binding wins). -/
def Json.getMember (j : Json) (key : String) : Option Json :=
  match j with
  | .obj fields =>
    match fields.find? (fun kv => kv.1 = key) with
    | some kv => some kv.2
    | none => none
  | _ => none

/-- A JSON string's text, when the value is a string. -/
def Json.asString : Json → Option String
  | .str s => some s
  | _ => none

/-- A JSON boolean's value, when the value is a boolean. -/
def Json.asBool : Json → Option Bool
  | .bool b => some b
  | _ => none

/-- The severity enum of the schema: exactly the four literals. -/
def decodeSeverity (j : Json) : Option Severity :=
  match j with
  | .str "Critical" => some .critical
  | .str "High" => some .high
  | .str "Medium" => some .medium
  | .str "Low" => some .low
  | _ => none

/-- Strict decoder for one verdict object of the schema: all seven fields
required, each of its declared type. -/
def decodeSolutionItem (j : Json) : Option SolutionItem := do
  let reportId ← (j.getMember "reportId").bind Json.asString
  let severity ← (j.getMember "severity").bind decodeSeverity
  let displayTitle ← (j.getMember "displayTitle").bind Json.asString
  let actionPlan ← (j.getMember "actionPlan").bind Json.asString
  let recommendedResource ← (j.getMember "recommendedResource").bind Json.asString
  let justification ← (j.getMember "justification").bind Json.asString
  let isRelevant ← (j.getMember "isRelevant").bind Json.asBool
  pure { reportId, severity, displayTitle, actionPlan, recommendedResource,
         justification, isRelevant }

/-- Strict decoder for the whole response schema (src/unnamed/part_001
lines 45-70): an object with a string `strategicOverview` and an array
`prioritizedReports` of verdict objects, both required. `none` is a schema
violation. -/
def decodeAnalysisResult (j : Json) : Option AnalysisResult := do
  let strategicOverview ← (j.getMember "strategicOverview").bind Json.asString
  let pr ← j.getMember "prioritizedReports"
  match pr with
  | .arr items => do
    let prioritizedReports ← items.mapM decodeSolutionItem
    pure { strategicOverview, prioritizedReports }
  | _ => none

/-! ### The Triage Analyzer (`analyzeReports`, src/unnamed/part_001 lines 8-91) -/

/-- A failure `analyzeReports` can throw: the generative-AI call itself
rejected, or `JSON.parse` threw on the present response text. Both are
rethrown to the caller by the `catch` block. -/
inductive AnalyzeError where
  | service (msg : String)
  | parse
deriving DecidableEq, Repr

/-- What a run of `analyzeReports` did: its returned/thrown outcome, and
whether the classification service was contacted at all. -/
structure AnalyzeOutcome where
  result : Except AnalyzeError (Option Json)
  serviceCalled : Bool

/-- `analyzeReports` (src/unnamed/part_001 lines 8-91), with the
generative-AI call abstracted as `svc`: `.error msg` a rejected call,
`.ok text` a completed response whose `text` property is `text` (`none`
when absent). An empty batch returns `null` before any call. A falsy
response text (absent or empty) returns `null`. Otherwise the text goes
through `JSON.parse`, and the `as AnalysisResult` cast performs no
validation, so the parsed JSON value is returned unchanged whatever its
shape; only a `JSON.parse` throw (or a service rejection) propagates. -/
def analyzeReports (reports : List Report) (svc : Except String (Option String)) :
    AnalyzeOutcome :=
  if reports.length = 0 then ⟨.ok none, false⟩
  else
    match svc with
    | .error msg => ⟨.error (.service msg), true⟩
    | .ok text =>
      match text with
      | some s =>
        if s = "" then ⟨.ok none, true⟩
        else
          match parseJson s with
          | some j => ⟨.ok (some j), true⟩
          | none => ⟨.error .parse, true⟩
      | none => ⟨.ok none, true⟩

/-! ### The Verification Auditor (`verifyReportImage`, src/unnamed/part_001 lines 131-207) -/

/-- Media-type detection of `verifyReportImage` (lines 139-153): when the
payload contains both `data:` and `base64,`, the regex
`data:(.*?);base64,(.*)` extracts the media type (between the first
`data:` and the first `;base64,` after it) and the payload after; on a
regex mismatch the defaults stand. Else, with a bare `base64,` marker,
`split('base64,')[1]` is the payload. Else the whole value is the payload.
The default media type is `image/jpeg` throughout. -/
def detectMime (img : String) : String × String :=
  if includesSub img "data:" && includesSub img "base64," then
    match breakOnSub "data:".data img.data with
    | some (_, afterData) =>
      match breakOnSub ";base64,".data afterData with
      | some (mime, payload) => (⟨mime⟩, ⟨payload⟩)
      | none => ("image/jpeg", img)
    | none => ("image/jpeg", img)
  else if includesSub img "base64," then
    ("image/jpeg", ⟨(splitSecondChunk "base64,".data img.data).getD []⟩)
  else ("image/jpeg", img)

/-- A failure `verifyReportImage` can throw: the fail-fast precondition
error, a rejected multimodal call, or a `JSON.parse` throw on the present
response text. -/
inductive VerifyError where
  | noValidImage
  | service (msg : String)
  | parse
deriving DecidableEq, Repr

/-- The message each `VerifyError` carries (`new Error(...)`). -/
def VerifyError.message : VerifyError → String
  | .noValidImage => "No valid image to verify"
  | .service msg => msg
  | .parse => "Unexpected token in JSON"

/-- What a run of `verifyReportImage` did: its returned/thrown outcome,
the audit request it issued (media type and payload), and whether the
multimodal service was contacted at all. -/
structure VerifyOutcome where
  result : Except VerifyError (Option Json)
  request : Option (String × String)
  serviceCalled : Bool

/-- `verifyReportImage` (src/unnamed/part_001 lines 131-207), with the
multimodal call abstracted as `svc` (as in `analyzeReports`). A missing
image (`!report.imageBase64`) or one shorter than 50 characters throws
`No valid image to verify` before the media-type detection and before any
request. Otherwise the audit request is issued; a falsy response text
returns `null`; a present text goes through `JSON.parse` with the
unvalidated `as VerificationResult` cast. -/
def verifyReportImage (report : Report) (svc : Except String (Option String)) :
    VerifyOutcome :=
  if report.imageBase64 = "" || report.imageBase64.length < 50 then
    ⟨.error .noValidImage, none, false⟩
  else
    let req := detectMime report.imageBase64
    match svc with
    | .error msg => ⟨.error (.service msg), some req, true⟩
    | .ok text =>
      match text with
      | some s =>
        if s = "" then ⟨.ok none, some req, true⟩
        else
          match parseJson s with
          | some j => ⟨.ok (some j), some req, true⟩
          | none => ⟨.error .parse, some req, true⟩
      | none => ⟨.ok none, some req, true⟩

/-! ### The Consultation Session (src/unnamed/part_001 lines 121-129 and
src/unnamed/part_002 lines 375-392) -/

/-- A chat message role: the operator or the model. -/
inductive Role where
  | user
  | model
deriving DecidableEq, Repr

/-- A `ChatMessage` as the solution panel stores it: role, text, and the
`new Date()` creation instant. The `ChatMessage` interface (src/index.tsx,
types module, lines 58-62) declares the timestamp optional; the panel
supplies one at every message construction, so the messages modelled here
always carry it. -/
structure ChatMessage where
  role : Role
  text : String
  timestamp : String
deriving DecidableEq, Repr

/-- The chat collaborator's behavior for one `chat.sendMessage` round
trip: a rejection, or a completed result whose `text` property is given
(`none` when absent). -/
inductive ChatSvc where
  | fail (msg : String)
  | ok (text : Option String)

/-- `sendChatMessage` (src/unnamed/part_001 lines 121-129): returns
`result.text || "I couldn't generate a response."`; a rejected call is
rethrown to the caller. -/
def sendChatMessage (svc : ChatSvc) : Except String String :=
  match svc with
  | .fail msg => .error msg
  | .ok text =>
    match text with
    | some s => .ok (if s = "" then "I couldn't generate a response." else s)
    | none => .ok "I couldn't generate a response."

/-- The solution panel's chat state that `handleSendChat` touches: the
message list and the input box. -/
structure ChatState where
  messages : List ChatMessage
  input : String
deriving DecidableEq, Repr

/-- The model-role notice `handleSendChat` appends when the service call
fails (src/unnamed/part_002 line 388). -/
def chatErrorNotice : String := "Sorry, I encountered an error responding to that."

/-- `handleSendChat` (src/unnamed/part_002 lines 375-392). `chatPresent`
is whether `chatRef.current` is non-null; `nowUser` and `nowModel` are the
`new Date()` instants at the two message constructions. A blank input or a
missing chat handle leaves the state unchanged. Otherwise the operator's
message is appended and the input cleared; then the service reply is
appended on success, and on failure the `catch` appends the model-role
error notice instead — no exception escapes the handler. -/
def handleSendChat (st : ChatState) (chatPresent : Bool) (svc : ChatSvc)
    (nowUser nowModel : String) : ChatState :=
  if jsTrim st.input = "" || !chatPresent then st
  else
    let userMsg : ChatMessage := ⟨.user, st.input, nowUser⟩
    let afterUser : ChatState := ⟨st.messages ++ [userMsg], ""⟩
    match sendChatMessage svc with
    | .ok responseText =>
      ⟨afterUser.messages ++ [⟨.model, responseText, nowModel⟩], afterUser.input⟩
    | .error _ =>
      ⟨afterUser.messages ++ [⟨.model, chatErrorNotice, nowModel⟩], afterUser.input⟩

/-! ### The Deletion Workflow (src/unnamed/part_002 lines 108-129 and
src/unnamed/part_000 lines 29-40) -/

/-- The per-row delete button state (`deleteState` in `ReportRow`). -/
inductive DeleteState where
  | idle
  | confirm
  | deleting
deriving DecidableEq, Repr

/-- The confirmation window in milliseconds: the `setTimeout` delay armed
by the first click (src/unnamed/part_002 line 120). -/
def confirmTimeoutMs : Nat := 3000

/-- The asynchronous events that drive one row's deletion workflow. A
click in `idle` arms the `confirmTimeoutMs` timer; `timerFire` is that
timer's callback running; `settle ok` is the awaited
`onDelete(report.id)` call settling, with `ok` whether the store's delete
succeeded (`handleDelete` swallows a failure after alerting, so the
handler resumes identically either way). -/
inductive DeleteEvent where
  | click
  | timerFire
  | settle (ok : Bool)
deriving DecidableEq, Repr

/-- The state the deletion workflow touches, for the row of identifier
`id`: the button state, the app's working set (`reports` in `App`), and a
count of `deleteReport` invocations issued. -/
structure RowMachine where
  deleteState : DeleteState
  reports : List Report
  storeCalls : Nat
deriving DecidableEq, Repr

/-- The machine before any interaction. -/
def initRow (reports : List Report) : RowMachine :=
  ⟨.idle, reports, 0⟩

/-- One event of the deletion workflow for identifier `id`, combining
`handleDeleteClick` (src/unnamed/part_002 lines 113-129) with
`handleDelete` (src/unnamed/part_000 lines 29-40). A click in `idle`
moves to `confirm`; a click in `confirm` moves to `deleting` and issues
the store delete; a click in `deleting` does nothing (the button is
disabled and the handler has no branch for it). The timer callback
reverts only a still-`confirm` state (`prev === 'confirm' ? 'idle' :
prev`). When the issued delete settles, a success filters `id` out of the
working set, and the state returns to `idle` whether it succeeded or
not. -/
def deleteStep (id : String) (m : RowMachine) : DeleteEvent → RowMachine
  | .click =>
    match m.deleteState with
    | .idle => { m with deleteState := .confirm }
    | .confirm => { m with deleteState := .deleting, storeCalls := m.storeCalls + 1 }
    | .deleting => m
  | .timerFire =>
    { m with deleteState := if m.deleteState = .confirm then .idle else m.deleteState }
  | .settle ok =>
    match m.deleteState with
    | .deleting =>
      { m with
        deleteState := .idle
        reports := if ok then m.reports.filter (fun r => r.id ≠ id) else m.reports }
    | _ => m

/-- A sequence of deletion-workflow events, oldest first. -/
def deleteRun (id : String) (m : RowMachine) (events : List DeleteEvent) : RowMachine :=
  events.foldl (deleteStep id) m

/-! ### Spec-side definitions for the refinement comparisons -/

/-- The `timestampString` resolution rule transcribed from the
specification's words, for comparison with the source's `resolveTimestamp`:
(1) a store-native temporal object convertible to a display string, (2) a
raw string-typed `timestamp` field, (3) a field named with the recognized
month-literal key (`timestampJanuary`, the one key the requirements name)
rendered as `<Month> <value>`, (4) the first field whose name starts with
the prefix `timestamp`, (5) the fallback literal `Unknown Time`. -/
def specTimestampString (data : RawRecord) : String :=
  match getField data "timestamp" with
  | .tsObj displayString => displayString
  | .str s => s
  | _ =>
    if getField data "timestampJanuary" ≠ .undefined then
      "January " ++ jsToString (getField data "timestampJanuary")
    else
      match data.find? (fun kv => jsStartsWith kv.1 "timestamp") with
      | some kv => jsToString kv.2
      | none => "Unknown Time"

/-- Whether a value carries a `toDate` method (a Firestore Timestamp). -/
def hasToDate : JsValue → Bool
  | .tsObj _ => true
  | _ => false

/-- The display string of a temporal value (its
`toDate().toLocaleString()` rendering), empty for other values. -/
def tsDisplay : JsValue → String
  | .tsObj d => d
  | _ => ""

/-- The `timestampString` resolution rule as amended to match the source:
(1) a store-native temporal object renders as its display string; (2) any
*truthy* `timestamp` field — of any type, not only strings — renders by
JavaScript string coercion; (3) the recognized month key
`timestampJanuary` applies only when its value is truthy; (4) otherwise
the first field whose name starts with `timestamp` is string-coerced; (5)
else the fallback literal `Unknown Time`. -/
def amendedTimestampString (data : RawRecord) : String :=
  let ts := getField data "timestamp"
  if hasToDate ts then tsDisplay ts
  else if ts.truthy then jsToString ts
  else if (getField data "timestampJanuary").truthy then
    "January " ++ jsToString (getField data "timestampJanuary")
  else
    match data.find? (fun kv => jsStartsWith kv.1 "timestamp") with
    | some kv => jsToString kv.2
    | none => "Unknown Time"

/-! ### Concrete sample inputs used by witnesses -/

/-- A concrete canonical report without an image. -/
def demoReport : Report :=
  { id := "r1"
    address := "Jalan Merdeka 1"
    dateTime := "2026-01-05T08:30:00.000Z"
    description := "Deep pothole on the main road"
    imageBase64 := ""
    latitude := JsNum.zero
    longitude := JsNum.zero
    timestampString := some "Unknown Time" }

/-- A concrete canonical report whose image payload has 50 characters
(the least non-trivial length). -/
def demoImageReport : Report :=
  { demoReport with
    id := "r2"
    imageBase64 := "AAAAAAAAAAAAAAAAAAAAAAAAAAAAAAAAAAAAAAAAAAAAAAAAAA" }

/-! ## Claim theorems -/

/-- C9: for every raw record whose image field equals the three-character
ellipsis placeholder string `"..."`, the normalized Report's image data is
the empty string; the placeholder is never passed downstream. -/
theorem placeholder_image_normalizes_to_empty (docId : String) (data : RawRecord)
    (now : String) (h : getField data "imageBase64" = .str "...") :
    (normalizeReport docId data now).imageBase64 = "" := by
  rw [show (normalizeReport docId data now).imageBase64
        = normalizeImage (getField data "imageBase64") from rfl, h]
  decide

/-- Witness for C9 at a concrete raw record carrying the placeholder. -/
theorem placeholder_image_witness :
    getField [("imageBase64", JsValue.str "...")] "imageBase64" = .str "..." ∧
    (normalizeReport "r1" [("imageBase64", JsValue.str "...")]
      "2026-01-05T08:30:00.000Z").imageBase64 = "" :=
  ⟨rfl, placeholder_image_normalizes_to_empty _ _ _ rfl⟩

/-- C8: for every raw record, an absent coordinate field does not parse
(`parseFloat(undefined)` is NaN); a coordinate that does not parse
normalizes to 0; and a coordinate that parses normalizes to the parsed
numeric value — for latitude and longitude alike. -/
theorem coordinate_parse_defaults (docId : String) (data : RawRecord) (now : String) :
    parseFloatJs JsValue.undefined = .nan ∧
    (parseFloatJs (getField data "latitude") = .nan →
      (normalizeReport docId data now).latitude = JsNum.zero) ∧
    (parseFloatJs (getField data "latitude") ≠ .nan →
      (normalizeReport docId data now).latitude = parseFloatJs (getField data "latitude")) ∧
    (parseFloatJs (getField data "longitude") = .nan →
      (normalizeReport docId data now).longitude = JsNum.zero) ∧
    (parseFloatJs (getField data "longitude") ≠ .nan →
      (normalizeReport docId data now).longitude = parseFloatJs (getField data "longitude")) := by
  refine ⟨rfl, fun h => ?_, fun h => ?_, fun h => ?_, fun h => ?_⟩ <;>
    simp [normalizeReport, h]

/-- Witness for C8 at a concrete raw record with a parseable latitude and
an absent longitude. -/
theorem coordinate_parse_witness :
    parseFloatJs (getField [("latitude", JsValue.str "3.007")] "latitude") ≠ .nan ∧
    (normalizeReport "r1" [("latitude", JsValue.str "3.007")] "NOW").latitude
      = parseFloatJs (getField [("latitude", JsValue.str "3.007")] "latitude") ∧
    parseFloatJs (getField [("latitude", JsValue.str "3.007")] "longitude") = .nan ∧
    (normalizeReport "r1" [("latitude", JsValue.str "3.007")] "NOW").longitude = JsNum.zero :=
  ⟨by decide,
   (coordinate_parse_defaults "r1" [("latitude", JsValue.str "3.007")] "NOW").2.2.1 (by decide),
   by decide,
   (coordinate_parse_defaults "r1" [("latitude", JsValue.str "3.007")] "NOW").2.2.2.1 (by decide)⟩

/-- C4 counterexample: normalization consults the wall clock. A raw record
with no `dateTime` field defaults that field to the current instant, so two
runs on the identical raw record at different instants yield different
Reports — the claimed two-run determinism fails. -/
theorem normalization_clock_dependent :
    (normalizeReport "r1" [] "2026-01-01T00:00:00.000Z").dateTime
      = "2026-01-01T00:00:00.000Z" ∧
    (normalizeReport "r1" [] "2026-01-02T00:00:00.000Z").dateTime
      = "2026-01-02T00:00:00.000Z" ∧
    normalizeReport "r1" [] "2026-01-01T00:00:00.000Z"
      ≠ normalizeReport "r1" [] "2026-01-02T00:00:00.000Z" := by
  refine ⟨rfl, rfl, ?_⟩
  decide

/-- C4 as amended: normalization is a pure function of the raw record and
the run instant, and for every raw record carrying a truthy `dateTime`
field the run instant is irrelevant, so two runs on identical input yield
identical Reports. -/
theorem normalization_deterministic_with_dateTime (docId : String) (data : RawRecord)
    (now₁ now₂ : String) (h : (getField data "dateTime").truthy = true) :
    normalizeReport docId data now₁ = normalizeReport docId data now₂ := by
  simp [normalizeReport, strFieldOrDefault, h]

/-- Witness for the amended C4 at a concrete raw record with a `dateTime`
field and two distinct run instants. -/
theorem normalization_deterministic_witness :
    (getField [("dateTime", JsValue.str "2026-01-03T00:00:00.000Z")] "dateTime").truthy
      = true ∧
    normalizeReport "r1" [("dateTime", JsValue.str "2026-01-03T00:00:00.000Z")] "T1"
      = normalizeReport "r1" [("dateTime", JsValue.str "2026-01-03T00:00:00.000Z")] "T2" :=
  ⟨by decide, normalization_deterministic_with_dateTime _ _ _ _ (by decide)⟩

/-- C5 counterexample: the spec's rule (2) restricts itself to a
string-typed `timestamp` field, but the source's check is truthiness of
any type. On a record whose `timestamp` field is the boolean `true` and
whose first `timestamp`-prefixed field is `timestampZ = "A"`, the source
renders `"true"` while the spec's priority yields `"A"`. -/
theorem timestamp_rule_counterexample :
    resolveTimestamp [("timestampZ", JsValue.str "A"), ("timestamp", JsValue.bool true)]
      = "true" ∧
    specTimestampString [("timestampZ", JsValue.str "A"), ("timestamp", JsValue.bool true)]
      = "A" ∧
    (normalizeReport "r1"
      [("timestampZ", JsValue.str "A"), ("timestamp", JsValue.bool true)]
      "NOW").timestampString = some "true" ∧
    ("true" : String) ≠ "A" := by
  refine ⟨by decide, by decide, by decide, by decide⟩

/-- C5 as amended: for every raw record the normalized `timestampString`
follows the first-match priority with rule (2) reading "any truthy
`timestamp` field, string-coerced" and rule (3) applying only to a truthy
`timestampJanuary`; rules (1), (4) and (5) are as the spec states them. -/
theorem timestampString_follows_amended_priority (docId : String) (data : RawRecord)
    (now : String) :
    (normalizeReport docId data now).timestampString
      = some (amendedTimestampString data) := by
  show some (resolveTimestamp data) = some (amendedTimestampString data)
  congr 1
  cases h : getField data "timestamp" <;>
    simp [resolveTimestamp, amendedTimestampString, h, hasToDate, tsDisplay]

/-- C7: `analyze` applied to the empty batch returns the absent result
with no error and without contacting the classification service; the
absent outcome is not a failure. -/
theorem analyze_empty_batch_absent (svc : Except String (Option String)) :
    analyzeReports [] svc = ⟨.ok none, false⟩ ∧
    ∀ e, (analyzeReports [] svc).result ≠ .error e :=
  ⟨rfl, fun _ h => Except.noConfusion h⟩

/-- C3 counterexample: the response text `"{}"` is present and valid JSON
but violates the fixed AnalysisResult schema (both required fields are
missing), yet `analyzeReports` on a non-empty batch returns it coerced as
a success instead of failing hard. -/
theorem analyze_silently_coerces :
    parseJson "{}" = some (.obj []) ∧
    decodeAnalysisResult (.obj []) = none ∧
    (analyzeReports [demoReport] (.ok (some "{}"))).result = .ok (some (.obj [])) ∧
    (analyzeReports [demoReport] (.ok (some "{}"))).serviceCalled = true :=
  ⟨rfl, rfl, rfl, rfl⟩

/-- C3 as amended: for every non-empty batch and present non-empty
response text, a text that is not valid JSON makes `analyzeReports` fail
hard with a parse error propagated to the caller, while a text that
parses as any JSON value — schema-conformant or not — is returned as that
value with no schema validation. -/
theorem analyze_parse_behavior (reports : List Report) (s : String)
    (hne : reports ≠ []) (hs : s ≠ "") :
    (parseJson s = none →
      (analyzeReports reports (.ok (some s))).result = .error .parse) ∧
    (∀ j, parseJson s = some j →
      (analyzeReports reports (.ok (some s))).result = .ok (some j)) := by
  have hlen : ¬ reports.length = 0 := by simpa using hne
  constructor
  · intro hp
    simp [analyzeReports, hlen, hs, hp]
  · intro j hp
    simp [analyzeReports, hlen, hs, hp]

/-- Witness for the amended C3: on a singleton batch, the present response
text `"not json"` is not valid JSON and `analyzeReports` fails with the
parse error. -/
theorem analyze_parse_witness :
    ([demoReport] : List Report) ≠ [] ∧ ("not json" : String) ≠ "" ∧
    parseJson "not json" = none ∧
    (analyzeReports [demoReport] (.ok (some "not json"))).result = .error .parse :=
  ⟨by decide, by decide, rfl,
   (analyze_parse_behavior [demoReport] "not json" (by decide) (by decide)).1 rfl⟩

/-- C6: for every report whose image payload is empty or shorter than 50
characters, `verifyReportImage` throws the `No valid image to verify`
error with no request issued and no service contact; with a payload of at
least 50 characters the audit request is issued. -/
theorem verify_image_precondition (report : Report) (svc : Except String (Option String)) :
    (report.imageBase64.length < 50 →
      verifyReportImage report svc = ⟨.error .noValidImage, none, false⟩) ∧
    (50 ≤ report.imageBase64.length →
      (verifyReportImage report svc).serviceCalled = true ∧
      (verifyReportImage report svc).request = some (detectMime report.imageBase64)) ∧
    VerifyError.noValidImage.message = "No valid image to verify" := by
  refine ⟨fun h => ?_, fun h => ?_, rfl⟩
  · simp [verifyReportImage, h]
  · have h1 : ¬ report.imageBase64 = "" := by
      intro he
      rw [he] at h
      exact absurd h (by decide)
    have h2 : ¬ report.imageBase64.length < 50 := Nat.not_lt.2 h
    cases svc with
    | error msg => simp [verifyReportImage, h1, h2]
    | ok text =>
      cases text with
      | none => simp [verifyReportImage, h1, h2]
      | some s =>
        by_cases hs : s = ""
        · simp [verifyReportImage, h1, h2, hs]
        · cases hp : parseJson s <;> simp [verifyReportImage, h1, h2, hs, hp]

/-- Witness for C6: a report with an empty payload fails fast without
service contact; a report with a 50-character payload reaches the
service. -/
theorem verify_image_precondition_witness :
    demoReport.imageBase64.length < 50 ∧
    verifyReportImage demoReport (.ok (some "{}")) = ⟨.error .noValidImage, none, false⟩ ∧
    50 ≤ demoImageReport.imageBase64.length ∧
    (verifyReportImage demoImageReport (.ok (some "{}"))).serviceCalled = true :=
  ⟨by decide, (verify_image_precondition demoReport (.ok (some "{}"))).1 (by decide),
   by decide,
   ((verify_image_precondition demoImageReport (.ok (some "{}"))).2.1 (by decide)).1⟩

/-- C10 (implicit): for every report that passes the image precondition,
a present, non-failing audit response whose text payload is empty makes
`verifyReportImage` return the absent result (`null`) after contacting
the service — neither a VerificationResult nor an error. -/
theorem verify_empty_response_absent (report : Report)
    (h : 50 ≤ report.imageBase64.length) :
    (verifyReportImage report (.ok (some ""))).result = .ok none ∧
    (verifyReportImage report (.ok (some ""))).serviceCalled = true := by
  have h1 : ¬ report.imageBase64 = "" := by
    intro he
    rw [he] at h
    exact absurd h (by decide)
  have h2 : ¬ report.imageBase64.length < 50 := Nat.not_lt.2 h
  simp [verifyReportImage, h1, h2]

/-- Witness for C10 at a concrete report with a 50-character payload. -/
theorem verify_empty_response_witness :
    50 ≤ demoImageReport.imageBase64.length ∧
    (verifyReportImage demoImageReport (.ok (some ""))).result = .ok none :=
  ⟨by decide, (verify_empty_response_absent demoImageReport (by decide)).1⟩

/-- C1 counterexample: when the chat service call fails, the panel's
message list does receive a model-authored message — the error notice —
after the operator's message, contradicting the claim that no
model-authored message is appended on failure. -/
theorem chat_failure_appends_model_notice :
    (handleSendChat ⟨[], "hi"⟩ true (.fail "network down") "T1" "T2").messages
      = [⟨.user, "hi", "T1"⟩, ⟨.model, chatErrorNotice, "T2"⟩] ∧
    ((handleSendChat ⟨[], "hi"⟩ true (.fail "network down") "T1" "T2").messages.any
      (fun m => m.role = Role.model)) = true :=
  ⟨by decide, by decide⟩

/-- C1 as amended: when the chat service call fails, `sendChatMessage`
rethrows the failure to its caller; the panel's `handleSendChat` swallows
it, keeps the operator's message in the list, appends the model-role
error notice in place of a service reply, and clears the input — no
exception escapes the handler. -/
theorem chat_failure_behavior (msgs : List ChatMessage)
    (input errMsg nowU nowM : String) (h : jsTrim input ≠ "") :
    sendChatMessage (.fail errMsg) = .error errMsg ∧
    handleSendChat ⟨msgs, input⟩ true (.fail errMsg) nowU nowM
      = ⟨msgs ++ [⟨.user, input, nowU⟩, ⟨.model, chatErrorNotice, nowM⟩], ""⟩ := by
  refine ⟨rfl, ?_⟩
  simp [handleSendChat, sendChatMessage, h]

/-- Witness for the amended C1 at a concrete panel state and failing
service. -/
theorem chat_failure_witness :
    jsTrim "hi" ≠ "" ∧
    sendChatMessage (.fail "network down") = .error "network down" ∧
    handleSendChat ⟨[], "hi"⟩ true (.fail "network down") "T1" "T2"
      = ⟨[⟨.user, "hi", "T1"⟩, ⟨.model, chatErrorNotice, "T2"⟩], ""⟩ :=
  ⟨by decide,
   (chat_failure_behavior [] "hi" "network down" "T1" "T2" (by decide)).1,
   (chat_failure_behavior [] "hi" "network down" "T1" "T2" (by decide)).2⟩

/-- C2: the deletion workflow for identifier `id` present in the working
set: the 3-second window constant; a first click moves idle to
confirming; a second click moves to deleting with exactly one store
delete issued; when the store call settles successfully the state returns
to idle and `id` is gone from the working set; a timer firing with no
second click reverts to idle with zero store calls and `id` still
present; and a timer firing after deleting has begun changes nothing. -/
theorem deletion_workflow (id : String) (reports : List Report)
    (h : id ∈ reports.map Report.id) :
    confirmTimeoutMs = 3000 ∧
    deleteStep id (initRow reports) .click = ⟨.confirm, reports, 0⟩ ∧
    deleteRun id (initRow reports) [.click, .click] = ⟨.deleting, reports, 1⟩ ∧
    (deleteRun id (initRow reports) [.click, .click, .settle true]).deleteState = .idle ∧
    (deleteRun id (initRow reports) [.click, .click, .settle true]).reports
      = reports.filter (fun r => r.id ≠ id) ∧
    id ∉ ((deleteRun id (initRow reports)
      [.click, .click, .settle true]).reports.map Report.id) ∧
    deleteRun id (initRow reports) [.click, .timerFire] = ⟨.idle, reports, 0⟩ ∧
    id ∈ ((deleteRun id (initRow reports) [.click, .timerFire]).reports.map Report.id) ∧
    deleteRun id (initRow reports) [.click, .click, .timerFire, .settle true]
      = deleteRun id (initRow reports) [.click, .click, .settle true] := by
  refine ⟨rfl, rfl, rfl, rfl, rfl, ?_, rfl, h, rfl⟩
  show id ∉ (reports.filter (fun r => r.id ≠ id)).map Report.id
  rw [List.mem_map]
  rintro ⟨r, hr, hid⟩
  rw [List.mem_filter] at hr
  exact absurd hid (by simpa using hr.2)

/-- Witness for C2 at a concrete one-report working set. -/
theorem deletion_workflow_witness :
    "r1" ∈ ([demoReport].map Report.id) ∧
    deleteRun "r1" (initRow [demoReport]) [.click, .timerFire]
      = ⟨.idle, [demoReport], 0⟩ ∧
    "r1" ∉ ((deleteRun "r1" (initRow [demoReport])
      [.click, .click, .settle true]).reports.map Report.id) :=
  ⟨by decide,
   (deletion_workflow "r1" [demoReport] (by decide)).2.2.2.2.2.2.1,
   (deletion_workflow "r1" [demoReport] (by decide)).2.2.2.2.2.1⟩

end Lightning
